import Mathlib

/-!
Verification of the layered configuration resolution engine for file
operations (`mirrord/config/src/fs/advanced.rs`).

The file embeds the data model (`AdvancedFsUserConfig`, `FsConfig`,
`FsModeConfig`, `VecOrSingle`) and the two resolution paths
(`generate_config` and `disabled_config`) as pure Lean functions over an
explicit environment snapshot, and proves the specification's laws about
them.
-/

namespace MirrordFs

/-- An environment snapshot: maps a variable name to its value, if set.
A variable set to the empty string is `some ""`, distinct from `none`. -/
abbrev Env := String → Option String

/-- The environment in which no relevant variable is set. -/
def emptyEnv : Env := fun _ => none

/-- Extend an environment snapshot with one variable binding. -/
def Env.set (env : Env) (name value : String) : Env :=
  fun n => if n = name then some value else env n

/-- Typed configuration error surfaced by resolution.  Modelled from the
spec: the concrete `ConfigError` type lives in `config/mod.rs`, which is
not part of the given sources; the spec (§7) only requires a typed error
carrying the parse failure. -/
inductive ConfigError where
  | invalidValue (name : String) (value : String)
deriving Repr, DecidableEq

/-- Rust `VecOrSingle<T>`: a value deserialized from either a single scalar or
a sequence.  Modelled from the spec: the type is declared in `util.rs`
(not among the given sources); the spec (§3, PatternSet) describes it as
"either a single scalar or a sequence". -/
inductive VecOrSingle (α : Type) where
  | Single (v : α)
  | Multiple (vs : List α)
deriving Repr, DecidableEq

/-- Normalization of a `VecOrSingle` into the ordered pattern sequence it
denotes.  Modelled from the spec: "a scalar is treated as a one-element
sequence" (§3, PatternSet). -/
def VecOrSingle.to_vec {α : Type} : VecOrSingle α → List α
  | .Single v => [v]
  | .Multiple vs => vs

/-- Split a character list on the comma delimiter, accumulating the
current chunk in reverse. -/
def splitOnCommaAux : List Char → List Char → List (List Char)
  | [], acc => [acc.reverse]
  | c :: rest, acc =>
    if c = ',' then acc.reverse :: splitOnCommaAux rest []
    else splitOnCommaAux rest (c :: acc)

/-- Split a string on the comma delimiter into its chunks. -/
def splitOnComma (s : String) : List String :=
  (splitOnCommaAux s.toList []).map String.mk

/-- Parsing an environment-variable string into a `VecOrSingle String`.
Modelled from the spec: "each list-typed variable accepts either a single
scalar string or a delimiter-joined list" (§6); Scenario C fixes the
delimiter-joined encoding of `["a.txt","b.txt"]` as `"a.txt,b.txt"`, so
the delimiter is the comma.  Parsing a string list never fails. -/
def parseVecOrSingle (s : String) : VecOrSingle String :=
  if s.toList.contains ',' then .Multiple (splitOnComma s) else .Single s

instance {ε α : Type} [DecidableEq ε] [DecidableEq α] : DecidableEq (Except ε α) := fun a b =>
  match a, b with
  | .error e, .error f =>
    if h : e = f then .isTrue (h ▸ rfl) else .isFalse fun c => h (Except.error.inj c)
  | .ok v, .ok w =>
    if h : v = w then .isTrue (h ▸ rfl) else .isFalse fun c => h (Except.ok.inj c)
  | .error _, .ok _ => .isFalse fun c => Except.noConfusion c
  | .ok _, .error _ => .isFalse fun c => Except.noConfusion c

/-- The provider call `FromEnv::new(name).source_value()` for a `VecOrSingle<String>` field:
look the variable up in the snapshot and parse it.  Modelled from the
spec: `FromEnv` lives in `config/from_env.rs` (not among the given
sources); per §4.1 a variable present but set to the empty string is
treated as set, and an unset variable yields no value. -/
def FromEnv.source_value (name : String) (env : Env) : Option (VecOrSingle String) :=
  (env name).map parseVecOrSingle

/-- Parse a boolean-style environment flag.  Modelled from the spec: the
two legacy mode flags are "boolean-ish environment knobs" (§4.2) and a
set-but-unparseable value is a configuration error, never a silent
fallback (§4.1, §7). -/
def parseBool (name value : String) : Except ConfigError Bool :=
  if value = "true" then .ok true
  else if value = "false" then .ok false
  else .error (.invalidValue name value)

/-- Look up and parse a boolean environment flag; `none` when unset, a
typed error when set but malformed. -/
def boolFromEnv (name : String) (env : Env) : Except ConfigError (Option Bool) :=
  match env name with
  | none => .ok none
  | some s => (parseBool name s).map some

/-- The closed set of file-operation modes.  Modelled from the spec:
`FsModeConfig` is defined in a sibling module not among the given
sources; the spec (§3, Mode) gives the members
{Disabled, Read, Write, ReadWrite} with canonical default `Read`. -/
inductive FsModeConfig where
  | Disabled
  | Read
  | Write
  | ReadWrite
deriving Repr, DecidableEq

/-- Whether the mode allows read operations; a pure function of the enum
tag.  Modelled from the spec (§4.2): Read and ReadWrite are the
read-capable members. -/
def FsModeConfig.is_read : FsModeConfig → Bool
  | .Read => true
  | .ReadWrite => true
  | _ => false

/-- Whether the mode allows write operations; a pure function of the enum
tag.  Modelled from the spec (§4.2): Write and ReadWrite are the
write-capable members. -/
def FsModeConfig.is_write : FsModeConfig → Bool
  | .Write => true
  | .ReadWrite => true
  | _ => false

/-- Derive a mode from the two legacy flags.  Modelled from the spec
(§4.2): "a read-only operations enabled flag and a separate all file
operations enabled flag each map to a member of Mode"; the read-only flag
(`MIRRORD_FILE_RO_OPS`) maps to `Read`, the all-operations flag
(`MIRRORD_FILE_OPS`) to `ReadWrite`; when neither flag selects a mode the
result is `none` and the canonical default applies. -/
def FsModeConfig.from_env_logic : Option Bool → Option Bool → Option FsModeConfig
  | _, some true => some .Read
  | some true, _ => some .ReadWrite
  | _, _ => none

/-- Mode resolution on the normal path.  Modelled from the spec (§4.2):
"explicit nested Mode value, else derive from environment flags, else the
canonical default (Read)"; per §4.1 the environment is not consulted when
the explicit value is present. -/
def FsModeConfig.generate_config (explicit : Option FsModeConfig) (env : Env) :
    Except ConfigError FsModeConfig :=
  match explicit with
  | some m => .ok m
  | none => do
    let fs ← boolFromEnv "MIRRORD_FILE_OPS" env
    let ro ← boolFromEnv "MIRRORD_FILE_RO_OPS" env
    .ok ((FsModeConfig.from_env_logic fs ro).getD .Read)

/-- Source `FsModeConfig::disabled_config`.  Modelled from the spec (§4.2): the
dedicated disable constructor "bypasses the layered lookup entirely and
returns Disabled unconditionally — it does not consult environment
variables"; the fallible signature mirrors the `?` at its call site in
`advanced.rs`. -/
def FsModeConfig.disabled_config : Except ConfigError FsModeConfig :=
  .ok .Disabled

/-- Struct `AdvancedFsUserConfig`: the user-authored partial configuration, from
`advanced.rs`.  The `mode` field carries `#[serde(default)]` in the
source; per the spec (§3) every PartialUserConfig field is optional, so
an absent (serde-defaulted) `mode` is represented by `none`. -/
structure AdvancedFsUserConfig where
  mode : Option FsModeConfig
  «include» : Option (VecOrSingle String)
  exclude : Option (VecOrSingle String)
deriving Repr, DecidableEq

/-- The fully absent user configuration (Rust `Default`). -/
def AdvancedFsUserConfig.default : AdvancedFsUserConfig :=
  ⟨none, none, none⟩

/-- Struct `FsConfig`: the resolved, immutable output configuration generated
from `AdvancedFsUserConfig` by the `map_to = FsConfig` derive in
`advanced.rs`. -/
structure FsConfig where
  mode : FsModeConfig
  «include» : Option (VecOrSingle String)
  exclude : Option (VecOrSingle String)
deriving Repr, DecidableEq

/-- Per-field resolution for an env-backed optional field.  Modelled from
the spec (§4.1, §9): precedence explicit > environment > default; the
environment is looked up only when the explicit value is absent; the
default for these `Option` fields is "absent". -/
def resolveField (explicit : Option (VecOrSingle String)) (name : String) (env : Env) :
    Option (VecOrSingle String) :=
  match explicit with
  | some v => some v
  | none => FromEnv.source_value name env

/-- Method `AdvancedFsUserConfig::generate_config`.  Modelled from the spec: the
body is produced by the `MirrordConfig` derive macro (not among the given
sources) from the `#[config(nested)]` and `#[config(env = ...)]`
attributes in `advanced.rs`; per §4.1/§4.4 it resolves `mode` as a nested
configuration and `include`/`exclude` through the source-provider
precedence against `MIRRORD_FILE_FILTER_INCLUDE` and
`MIRRORD_FILE_FILTER_EXCLUDE`. -/
def AdvancedFsUserConfig.generate_config (self : AdvancedFsUserConfig) (env : Env) :
    Except ConfigError FsConfig := do
  let mode ← FsModeConfig.generate_config self.mode env
  .ok { mode := mode
        «include» := resolveField self.«include» "MIRRORD_FILE_FILTER_INCLUDE" env
        exclude := resolveField self.exclude "MIRRORD_FILE_FILTER_EXCLUDE" env }

/-- Method `AdvancedFsUserConfig::disabled_config` (`advanced.rs`, lines 68–80):
take the disabled mode, and source `include`/`exclude` directly from the
environment variables. -/
def AdvancedFsUserConfig.disabled_config (env : Env) : Except ConfigError FsConfig := do
  let mode ← FsModeConfig.disabled_config
  let inc := FromEnv.source_value "MIRRORD_FILE_FILTER_INCLUDE" env
  let exc := FromEnv.source_value "MIRRORD_FILE_FILTER_EXCLUDE" env
  .ok { mode := mode, «include» := inc, exclude := exc }

/-- Method `FsConfig::is_read` (`advanced.rs`, lines 83–85): delegates to the
mode. -/
def FsConfig.is_read (self : FsConfig) : Bool :=
  self.mode.is_read

/-- Method `FsConfig::is_write` (`advanced.rs`, lines 87–89): delegates to the
mode. -/
def FsConfig.is_write (self : FsConfig) : Bool :=
  self.mode.is_write


/-! ## Helper lemmas -/

/-- Closed form of the disable path: the mode is `Disabled` and each
filter field is exactly the parse of its environment variable. -/
lemma disabled_config_eq (env : Env) :
    AdvancedFsUserConfig.disabled_config env =
      .ok ⟨.Disabled, (env "MIRRORD_FILE_FILTER_INCLUDE").map parseVecOrSingle,
           (env "MIRRORD_FILE_FILTER_EXCLUDE").map parseVecOrSingle⟩ := rfl

/-- Closed form of the normal path: the result is the mode resolution's
result, paired with the per-field resolution of the two filters. -/
lemma generate_config_eq (cfg : AdvancedFsUserConfig) (env : Env) :
    cfg.generate_config env =
      (FsModeConfig.generate_config cfg.mode env).map fun m =>
        ⟨m, resolveField cfg.«include» "MIRRORD_FILE_FILTER_INCLUDE" env,
            resolveField cfg.exclude "MIRRORD_FILE_FILTER_EXCLUDE" env⟩ := by
  cases h : FsModeConfig.generate_config cfg.mode env <;>
    simp only [AdvancedFsUserConfig.generate_config, h, Except.map] <;> rfl

/-! ## Claim theorems -/

/-- C2 (Disable law): for every environment state, the disable path
succeeds with mode `Disabled`, whose read and write predicates are both
false, while `include` and `exclude` still reflect the
`MIRRORD_FILE_FILTER_INCLUDE` and `MIRRORD_FILE_FILTER_EXCLUDE`
variables when set; in particular, with only the exclude variable set to
`"x"`, the result is `{mode: Disabled, include: None, exclude:
Some(["x"])}`. -/
theorem disable_law (env : Env) :
    (∃ fc, AdvancedFsUserConfig.disabled_config env = .ok fc ∧
      fc.mode = .Disabled ∧ fc.is_read = false ∧ fc.is_write = false ∧
      fc.«include» = (env "MIRRORD_FILE_FILTER_INCLUDE").map parseVecOrSingle ∧
      fc.exclude = (env "MIRRORD_FILE_FILTER_EXCLUDE").map parseVecOrSingle) ∧
    AdvancedFsUserConfig.disabled_config (emptyEnv.set "MIRRORD_FILE_FILTER_EXCLUDE" "x") =
      .ok ⟨.Disabled, none, some (.Single "x")⟩ :=
  ⟨⟨_, disabled_config_eq env, rfl, rfl, rfl, rfl, rfl⟩, by decide⟩

/-- Mode resolution falls back to the canonical default `Read` when both
legacy flags are unset. -/
lemma mode_default_of_unset (env : Env)
    (h1 : env "MIRRORD_FILE_OPS" = none) (h2 : env "MIRRORD_FILE_RO_OPS" = none) :
    FsModeConfig.generate_config none env = .ok .Read := by
  simp only [FsModeConfig.generate_config, boolFromEnv, h1, h2]
  rfl

/-- C3 (Default law): when none of `MIRRORD_FILE_OPS`,
`MIRRORD_FILE_RO_OPS`, `MIRRORD_FILE_FILTER_INCLUDE`,
`MIRRORD_FILE_FILTER_EXCLUDE` are set and the user config is empty,
`generate_config` succeeds and returns exactly
`{mode: Read, include: None, exclude: None}`. -/
theorem default_law (env : Env)
    (h1 : env "MIRRORD_FILE_OPS" = none) (h2 : env "MIRRORD_FILE_RO_OPS" = none)
    (h3 : env "MIRRORD_FILE_FILTER_INCLUDE" = none)
    (h4 : env "MIRRORD_FILE_FILTER_EXCLUDE" = none) :
    AdvancedFsUserConfig.default.generate_config env = .ok ⟨.Read, none, none⟩ := by
  rw [generate_config_eq, AdvancedFsUserConfig.default]
  rw [mode_default_of_unset env h1 h2]
  simp [resolveField, FromEnv.source_value, h3, h4, Except.map]

/-- Witness for C3 at the empty environment. -/
theorem default_law_witness :
    AdvancedFsUserConfig.default.generate_config emptyEnv = .ok ⟨.Read, none, none⟩ :=
  default_law emptyEnv rfl rfl rfl rfl

/-- C6 (Predicate delegation and totality): `FsConfig.is_read` and
`FsConfig.is_write` delegate to the mode's own predicates for every
resolved config, and over the four modes the pair
`(is_read, is_write)` is exactly Disabled ↦ (false, false), Read ↦
(true, false), Write ↦ (false, true), ReadWrite ↦ (true, true). -/
theorem predicate_delegation :
    (∀ fc : FsConfig, fc.is_read = fc.mode.is_read ∧ fc.is_write = fc.mode.is_write) ∧
    (FsModeConfig.Disabled.is_read, FsModeConfig.Disabled.is_write) = (false, false) ∧
    (FsModeConfig.Read.is_read, FsModeConfig.Read.is_write) = (true, false) ∧
    (FsModeConfig.Write.is_read, FsModeConfig.Write.is_write) = (false, true) ∧
    (FsModeConfig.ReadWrite.is_read, FsModeConfig.ReadWrite.is_write) = (true, true) :=
  ⟨fun _ => ⟨rfl, rfl⟩, rfl, rfl, rfl, rfl⟩

/-- C7 (Delimiter-list parsing, Scenario C): with the user config fully
absent and `MIRRORD_FILE_FILTER_INCLUDE` set to `"a.txt,b.txt"`,
`generate_config` returns a config whose include field holds the two
patterns `["a.txt", "b.txt"]`. -/
theorem delimiter_list_scenario :
    AdvancedFsUserConfig.default.generate_config
        (emptyEnv.set "MIRRORD_FILE_FILTER_INCLUDE" "a.txt,b.txt") =
      .ok ⟨.Read, some (.Multiple ["a.txt", "b.txt"]), none⟩ ∧
    (VecOrSingle.Multiple ["a.txt", "b.txt"]).to_vec = ["a.txt", "b.txt"] :=
  ⟨by decide, rfl⟩

/-- Resolving a field's value from an ok result of the normal path:
the mode resolution succeeded with the result's mode, and each filter
field is exactly its per-field resolution. -/
lemma generate_ok_fields (cfg : AdvancedFsUserConfig) (env : Env) (fc : FsConfig)
    (hfc : cfg.generate_config env = .ok fc) :
    FsModeConfig.generate_config cfg.mode env = .ok fc.mode ∧
    fc.«include» = resolveField cfg.«include» "MIRRORD_FILE_FILTER_INCLUDE" env ∧
    fc.exclude = resolveField cfg.exclude "MIRRORD_FILE_FILTER_EXCLUDE" env := by
  rw [generate_config_eq] at hfc
  cases h : FsModeConfig.generate_config cfg.mode env <;> rw [h] at hfc <;>
    simp [Except.map] at hfc
  subst hfc
  exact ⟨rfl, rfl, rfl⟩

/-- C1 (Precedence law): for each field of the user config, an explicit
value is carried to the resolved config unchanged, for every content of
the environment; an explicit mode moreover guarantees that resolution
succeeds, because no environment flag is consulted for the mode. -/
theorem precedence_law (cfg : AdvancedFsUserConfig) (env : Env) :
    (∀ m, cfg.mode = some m →
      ∃ fc, cfg.generate_config env = .ok fc ∧ fc.mode = m) ∧
    (∀ fc, cfg.generate_config env = .ok fc →
      (∀ m, cfg.mode = some m → fc.mode = m) ∧
      (∀ v, cfg.«include» = some v → fc.«include» = some v) ∧
      (∀ v, cfg.exclude = some v → fc.exclude = some v)) := by
  constructor
  · intro m hm
    have hok : cfg.generate_config env =
        .ok ⟨m, resolveField cfg.«include» "MIRRORD_FILE_FILTER_INCLUDE" env,
             resolveField cfg.exclude "MIRRORD_FILE_FILTER_EXCLUDE" env⟩ := by
      rw [generate_config_eq, hm]
      rfl
    exact ⟨_, hok, rfl⟩
  · intro fc hfc
    obtain ⟨hmode, hinc, hexc⟩ := generate_ok_fields cfg env fc hfc
    refine ⟨?_, ?_, ?_⟩
    · intro m hm
      rw [hm] at hmode
      exact (Except.ok.inj hmode).symm
    · intro v hv
      rw [hinc, hv]
      rfl
    · intro v hv
      rw [hexc, hv]
      rfl

/-- Two resolved configs with equal fields are equal. -/
lemma fsConfig_ext (fc : FsConfig) (m : FsModeConfig)
    (i e : Option (VecOrSingle String)) (hm : fc.mode = m)
    (hi : fc.«include» = i) (he : fc.exclude = e) : fc = ⟨m, i, e⟩ := by
  cases fc
  simp_all

/-- Witness for C1: an all-explicit config resolves to exactly its
explicit values under an environment that sets all four variables to
conflicting (and, for the read-only flag, malformed) contents. -/
theorem precedence_law_witness :
    (AdvancedFsUserConfig.mk (some .Write) (some (.Single "i"))
          (some (.Single "e"))).generate_config
        ((((emptyEnv.set "MIRRORD_FILE_OPS" "true").set "MIRRORD_FILE_RO_OPS"
            "banana").set "MIRRORD_FILE_FILTER_INCLUDE" "z").set
          "MIRRORD_FILE_FILTER_EXCLUDE" "w") =
      .ok ⟨.Write, some (.Single "i"), some (.Single "e")⟩ := by
  obtain ⟨fc, hfc, hm⟩ := (precedence_law ⟨some .Write, some (.Single "i"),
    some (.Single "e")⟩ _).1 .Write rfl
  obtain ⟨-, hi, he⟩ := (precedence_law _ _).2 fc hfc
  rw [fsConfig_ext fc _ _ _ hm (hi _ rfl) (he _ rfl)] at hfc
  exact hfc

/-- C4 (Parse-error law): on the normal path with no explicit mode, a
legacy mode flag that is set but not a boolean makes resolution return a
typed error naming the offending variable and value — never an ok result
with a default substituted; on the disable path resolution never errors,
since the only variables it consults are the two filter variables, whose
parse into `VecOrSingle String` is total. -/
theorem parse_error_law (cfg : AdvancedFsUserConfig) (env : Env) (s : String)
    (hmode : cfg.mode = none) :
    (env "MIRRORD_FILE_OPS" = some s → s ≠ "true" → s ≠ "false" →
      cfg.generate_config env = .error (.invalidValue "MIRRORD_FILE_OPS" s)) ∧
    (env "MIRRORD_FILE_RO_OPS" = some s → s ≠ "true" → s ≠ "false" →
      (∃ b, boolFromEnv "MIRRORD_FILE_OPS" env = .ok b) →
      cfg.generate_config env = .error (.invalidValue "MIRRORD_FILE_RO_OPS" s)) ∧
    (∀ e, AdvancedFsUserConfig.disabled_config env ≠ .error e) := by
  refine ⟨?_, ?_, ?_⟩
  · intro h ht hf
    rw [generate_config_eq, hmode]
    simp [FsModeConfig.generate_config, boolFromEnv, h, parseBool, ht, hf,
      Except.map, Bind.bind, Except.bind]
  · intro h ht hf hops
    obtain ⟨b, hb⟩ := hops
    rw [generate_config_eq, hmode]
    simp only [FsModeConfig.generate_config]
    rw [hb]
    simp [boolFromEnv, h, parseBool, ht, hf, Except.map, Bind.bind, Except.bind]
  · intro e hcontra
    rw [disabled_config_eq] at hcontra
    exact Except.noConfusion hcontra

/-- Witness for C4: with the user config empty and `MIRRORD_FILE_OPS`
set to the malformed value `"maybe"`, resolution returns the typed
error. -/
theorem parse_error_law_witness :
    AdvancedFsUserConfig.default.generate_config
        (emptyEnv.set "MIRRORD_FILE_OPS" "maybe") =
      .error (.invalidValue "MIRRORD_FILE_OPS" "maybe") :=
  (parse_error_law AdvancedFsUserConfig.default
    (emptyEnv.set "MIRRORD_FILE_OPS" "maybe") "maybe" rfl).1
    (by decide) (by decide) (by decide)

/-- Per-field resolution depends only on the named variable's content. -/
lemma resolveField_congr (x : Option (VecOrSingle String)) (name : String)
    (env₁ env₂ : Env) (h : env₁ name = env₂ name) :
    resolveField x name env₁ = resolveField x name env₂ := by
  cases x <;> simp [resolveField, FromEnv.source_value, h]

/-- Mode resolution depends only on the two legacy flags' contents. -/
lemma mode_resolution_congr (x : Option FsModeConfig) (env₁ env₂ : Env)
    (hops : env₁ "MIRRORD_FILE_OPS" = env₂ "MIRRORD_FILE_OPS")
    (hro : env₁ "MIRRORD_FILE_RO_OPS" = env₂ "MIRRORD_FILE_RO_OPS") :
    FsModeConfig.generate_config x env₁ = FsModeConfig.generate_config x env₂ := by
  cases x with
  | some m => rfl
  | none => simp [FsModeConfig.generate_config, boolFromEnv, hops, hro]

/-- C5 (Determinism / idempotence): both resolution paths are pure
functions of the user config and of the contents of the four consulted
environment variables — two calls under environments that agree on those
variables (in particular, two calls under one unchanged environment)
return structurally equal results. -/
theorem determinism_law (cfg : AdvancedFsUserConfig) (env₁ env₂ : Env)
    (hops : env₁ "MIRRORD_FILE_OPS" = env₂ "MIRRORD_FILE_OPS")
    (hro : env₁ "MIRRORD_FILE_RO_OPS" = env₂ "MIRRORD_FILE_RO_OPS")
    (hinc : env₁ "MIRRORD_FILE_FILTER_INCLUDE" = env₂ "MIRRORD_FILE_FILTER_INCLUDE")
    (hexc : env₁ "MIRRORD_FILE_FILTER_EXCLUDE" = env₂ "MIRRORD_FILE_FILTER_EXCLUDE") :
    cfg.generate_config env₁ = cfg.generate_config env₂ ∧
    AdvancedFsUserConfig.disabled_config env₁ =
      AdvancedFsUserConfig.disabled_config env₂ := by
  constructor
  · rw [generate_config_eq, generate_config_eq,
      mode_resolution_congr cfg.mode env₁ env₂ hops hro,
      resolveField_congr cfg.«include» _ env₁ env₂ hinc,
      resolveField_congr cfg.exclude _ env₁ env₂ hexc]
  · rw [disabled_config_eq, disabled_config_eq, hinc, hexc]

/-- Witness for C5: resolution is unchanged when an unrelated variable
is added to the environment, and repeated calls agree. -/
theorem determinism_law_witness :
    AdvancedFsUserConfig.default.generate_config emptyEnv =
      AdvancedFsUserConfig.default.generate_config (emptyEnv.set "HOME" "/root") ∧
    AdvancedFsUserConfig.disabled_config emptyEnv =
      AdvancedFsUserConfig.disabled_config (emptyEnv.set "HOME" "/root") :=
  determinism_law AdvancedFsUserConfig.default emptyEnv
    (emptyEnv.set "HOME" "/root") (by decide) (by decide) (by decide) (by decide)

/-- C8 (Empty-string-as-set): a filter environment variable present but
set to `""` is treated as set — it resolves to a present value (the
single empty pattern) on both resolution paths — and is therefore
distinguishable from the variable being unset, which resolves the field
to absent. -/
theorem empty_string_as_set_law (env : Env) (name : String) :
    (env name = some "" →
      FromEnv.source_value name env = some (.Single "") ∧
      resolveField none name env = some (.Single "")) ∧
    (env name = none →
      FromEnv.source_value name env = none ∧
      resolveField none name env = none) ∧
    (env "MIRRORD_FILE_FILTER_INCLUDE" = some "" →
      ∃ fc, AdvancedFsUserConfig.disabled_config env = .ok fc ∧
        fc.«include» = some (.Single "")) ∧
    (env "MIRRORD_FILE_FILTER_EXCLUDE" = some "" →
      ∃ fc, AdvancedFsUserConfig.disabled_config env = .ok fc ∧
        fc.exclude = some (.Single "")) ∧
    (∀ fc, env "MIRRORD_FILE_FILTER_INCLUDE" = some "" →
      AdvancedFsUserConfig.default.generate_config env = .ok fc →
      fc.«include» = some (.Single "")) := by
  refine ⟨?_, ?_, ?_, ?_, ?_⟩
  · intro h
    constructor <;> simp [resolveField, FromEnv.source_value, h, parseVecOrSingle]
  · intro h
    constructor <;> simp [resolveField, FromEnv.source_value, h]
  · intro h
    refine ⟨_, disabled_config_eq env, ?_⟩
    simp [h, parseVecOrSingle]
  · intro h
    refine ⟨_, disabled_config_eq env, ?_⟩
    simp [h, parseVecOrSingle]
  · intro fc h hfc
    obtain ⟨-, hinc, -⟩ := generate_ok_fields _ env fc hfc
    rw [hinc]
    simp [AdvancedFsUserConfig.default, resolveField, FromEnv.source_value, h,
      parseVecOrSingle]

/-- Witness for C8 with `MIRRORD_FILE_FILTER_INCLUDE` set to the empty
string: the disable path carries the present-but-empty pattern. -/
theorem empty_string_as_set_law_witness :
    FromEnv.source_value "MIRRORD_FILE_FILTER_INCLUDE"
        (emptyEnv.set "MIRRORD_FILE_FILTER_INCLUDE" "") = some (.Single "") ∧
    (AdvancedFsUserConfig.disabled_config
          (emptyEnv.set "MIRRORD_FILE_FILTER_INCLUDE" "")).map FsConfig.«include» =
      .ok (some (.Single "")) := by
  obtain ⟨h1, -, h3, -, -⟩ := empty_string_as_set_law
    (emptyEnv.set "MIRRORD_FILE_FILTER_INCLUDE" "") "MIRRORD_FILE_FILTER_INCLUDE"
  obtain ⟨fc, hfc, hinc⟩ := h3 (by decide)
  rw [hfc]
  exact ⟨(h1 (by decide)).1, by simp [Except.map, hinc]⟩

/-- The pattern-set view of a resolved config: each filter field
normalized to the pattern sequence it denotes.  Modelled from the spec
(§3, PatternSet): a scalar denotes its one-element sequence. -/
def FsConfig.patterns (fc : FsConfig) :
    FsModeConfig × Option (List String) × Option (List String) :=
  (fc.mode, fc.«include».map VecOrSingle.to_vec, fc.exclude.map VecOrSingle.to_vec)

/-- C9 (Scalar/sequence normalization): a single-string filter value and
the one-element sequence holding the same string denote the same pattern
set, and user configs differing only in that representation resolve to
configs with equal pattern-set views, on either filter field. -/
theorem scalar_sequence_normalization (s : String) (mo : Option FsModeConfig)
    (other : Option (VecOrSingle String)) (env : Env) :
    (VecOrSingle.Single s).to_vec = (VecOrSingle.Multiple [s]).to_vec ∧
    ((AdvancedFsUserConfig.mk mo (some (.Single s)) other).generate_config env).map
        FsConfig.patterns =
      ((AdvancedFsUserConfig.mk mo (some (.Multiple [s])) other).generate_config
          env).map FsConfig.patterns ∧
    ((AdvancedFsUserConfig.mk mo other (some (.Single s))).generate_config env).map
        FsConfig.patterns =
      ((AdvancedFsUserConfig.mk mo other (some (.Multiple [s]))).generate_config
          env).map FsConfig.patterns := by
  refine ⟨rfl, ?_, ?_⟩ <;>
    rw [generate_config_eq, generate_config_eq] <;>
    cases h : FsModeConfig.generate_config mo env <;>
    simp [Except.map, resolveField, FsConfig.patterns, VecOrSingle.to_vec]

/-- C10 (Disable-path independence): the disable path succeeds whenever
the mode's disable constructor does, for every content of the two filter
variables; the include result depends only on the include variable and
the exclude result only on the exclude variable, and when both variables
are set both fields are present — neither is dropped. -/
theorem disable_independence (env envI envE : Env)
    (hI : envI "MIRRORD_FILE_FILTER_INCLUDE" = env "MIRRORD_FILE_FILTER_INCLUDE")
    (hE : envE "MIRRORD_FILE_FILTER_EXCLUDE" = env "MIRRORD_FILE_FILTER_EXCLUDE") :
    (∀ m, FsModeConfig.disabled_config = .ok m →
      ∃ fc, AdvancedFsUserConfig.disabled_config env = .ok fc ∧ fc.mode = m) ∧
    ((AdvancedFsUserConfig.disabled_config envI).map FsConfig.«include» =
      (AdvancedFsUserConfig.disabled_config env).map FsConfig.«include») ∧
    ((AdvancedFsUserConfig.disabled_config envE).map FsConfig.exclude =
      (AdvancedFsUserConfig.disabled_config env).map FsConfig.exclude) ∧
    (∀ i e, env "MIRRORD_FILE_FILTER_INCLUDE" = some i →
      env "MIRRORD_FILE_FILTER_EXCLUDE" = some e →
      ∃ fc, AdvancedFsUserConfig.disabled_config env = .ok fc ∧
        fc.«include» = some (parseVecOrSingle i) ∧
        fc.exclude = some (parseVecOrSingle e)) := by
  refine ⟨?_, ?_, ?_, ?_⟩
  · intro m hm
    have hm' : FsModeConfig.Disabled = m := Except.ok.inj hm
    exact ⟨_, disabled_config_eq env, hm' ▸ rfl⟩
  · rw [disabled_config_eq, disabled_config_eq, hI]
    rfl
  · rw [disabled_config_eq, disabled_config_eq, hE]
    rfl
  · intro i e hi he
    refine ⟨_, disabled_config_eq env, ?_, ?_⟩ <;> simp [hi, he]

/-- Witness for C10: with both filter variables set, the disable path
keeps both values, and changing only the other variable leaves each
field's resolution unchanged. -/
theorem disable_independence_witness :
    (AdvancedFsUserConfig.disabled_config
          ((emptyEnv.set "MIRRORD_FILE_FILTER_INCLUDE" "a").set
            "MIRRORD_FILE_FILTER_EXCLUDE" "b")).map FsConfig.«include» =
      .ok (some (parseVecOrSingle "a")) ∧
    (AdvancedFsUserConfig.disabled_config
          ((emptyEnv.set "MIRRORD_FILE_FILTER_INCLUDE" "a").set
            "MIRRORD_FILE_FILTER_EXCLUDE" "b")).map FsConfig.exclude =
      .ok (some (parseVecOrSingle "b")) := by
  obtain ⟨-, -, -, h4⟩ := disable_independence
    ((emptyEnv.set "MIRRORD_FILE_FILTER_INCLUDE" "a").set
      "MIRRORD_FILE_FILTER_EXCLUDE" "b")
    ((emptyEnv.set "MIRRORD_FILE_FILTER_INCLUDE" "a").set
      "MIRRORD_FILE_FILTER_EXCLUDE" "zzz")
    ((emptyEnv.set "MIRRORD_FILE_FILTER_INCLUDE" "q").set
      "MIRRORD_FILE_FILTER_EXCLUDE" "b")
    (by decide) (by decide)
  obtain ⟨fc, hfc, hi, he⟩ := h4 "a" "b" (by decide) (by decide)
  rw [hfc]
  exact ⟨by simp [Except.map, hi], by simp [Except.map, he]⟩

end MirrordFs
